import Mathlib

/-!
Shallow embedding of the rules core of `src/game/common.py`: the `Stats`
patch/merge sheet, the `DamageInstance`/`Action`/`Item` value types, the
mutable `Inventory` (equipment slots plus a `Counter` backpack), and the
`Character` snapshot type with its `modify`, `update_stats` and `hit`
operations.

Modelling conventions:
- Python `None`-able fields become `Option _`; Python ints are `Int`
  (arbitrary precision); the `float` damage field is modelled as `ℚ`.
- Python dicts whose contents the rules never inspect (`effects`,
  `sprite_sheet`, `bonuses`) are modelled as association lists.
- A raised exception is an explicit error value.  Inventory operations
  mutate their receiver in place in Python, and a raising call leaves all
  mutations made before the raise in place; each operation therefore
  returns `Option PyErr × Inventory`: the error, if any, paired with the
  state of the inventory after the call (mutated or not).
- `Counter` lookups default to 0, so the backpack is a total function
  `Item → Int`; the equipment dict is a total function `String → Option
  Item` (the Python dict holds exactly the five slot keys, and both
  `equip` and `unequip` validate the slot name before any access, so no
  other key is ever read).
-/

namespace Game

/-- The exception kinds raised by the Python source: `ValueError` (all
explicit `raise` statements in `Inventory`), `AssertionError` (the
`assert count >= 0` checks), `TypeError` (arithmetic or comparison with
`None`), and `AttributeError` (access to a missing attribute). -/
inductive PyErr where
  | valueError
  | assertionError
  | typeError
  | attributeError
deriving DecidableEq, Repr

/-- The per-field rule of the `Stats.modify` / `Character.modify` loops:
`if new is None: keep old else: take new`. -/
def updateField {α : Type} (old new : Option α) : Option α :=
  match new with
  | none => old
  | some v => some v

/-- `Stats` from `common.py`: eight optional integer fields, all
defaulting to `None`. -/
structure Stats where
  max_health : Option Int := none
  max_stamina : Option Int := none
  max_mana : Option Int := none
  strength : Option Int := none
  agility : Option Int := none
  acumen : Option Int := none
  armor : Option Int := none
  magical_resistance : Option Int := none
deriving DecidableEq, Repr

/-- `Stats()` with every field left at its `None` default. -/
def Stats.blank : Stats := {}

/-- `Stats.modify`: field by field, a `None` in `changes` keeps the old
value, anything else overrides it.  Pure: builds a new sheet. -/
def Stats.modify (self changes : Stats) : Stats :=
  { max_health := updateField self.max_health changes.max_health
    max_stamina := updateField self.max_stamina changes.max_stamina
    max_mana := updateField self.max_mana changes.max_mana
    strength := updateField self.strength changes.strength
    agility := updateField self.agility changes.agility
    acumen := updateField self.acumen changes.acumen
    armor := updateField self.armor changes.armor
    magical_resistance := updateField self.magical_resistance changes.magical_resistance }

/-- `DamageInstance` from `common.py`; the `float` damage is modelled as
a rational. -/
structure DamageInstance where
  damage : ℚ
  damage_type : String
  effects : List (String × String)
deriving DecidableEq, Repr

/-- `Action` from `common.py`. -/
structure Action where
  name : String
  action_type : String
  description : String
  base_damage : Int
  damage_type : String
  effects : List (String × String)
deriving DecidableEq, Repr

/-- `Action.get_damage` simply returns `base_damage`. -/
def Action.get_damage (self : Action) : Int :=
  self.base_damage

/-- `Item` from `common.py`; the `uuid` is modelled as a string (the
repository's own test data passes the string "UUID"). -/
structure Item where
  name : String
  description : String
  tags : List String
  weight : Int
  max_durability : Int
  durability : Int
  stat_bonus : Stats
  actions : List Action
  uuid : String
deriving DecidableEq, Repr

/-- `Inventory` from `common.py`: the slot dict and the backpack
`Counter`. -/
structure Inventory where
  equipment : String → Option Item
  backpack : Item → Int

/-- The fixed tuple `Inventory.slots`. -/
def Inventory.slots : List String :=
  ["mainhand", "offhand", "head", "body", "feet"]

/-- `Inventory.new()`: every slot mapped to `None`, empty `Counter`. -/
def Inventory.new : Inventory :=
  { equipment := fun _ => none, backpack := fun _ => 0 }

/-- `self.equipment[slot] = v`. -/
def Inventory.setSlot (inv : Inventory) (slot : String) (v : Option Item) : Inventory :=
  { inv with equipment := fun s => if s = slot then v else inv.equipment s }

/-- `self.backpack[item] += count` (also used with a negative `count`
for `-=`). -/
def Inventory.addCount (inv : Inventory) (item : Item) (count : Int) : Inventory :=
  { inv with backpack := fun j => if j = item then inv.backpack j + count else inv.backpack j }

/-- `Inventory.add`: `assert count >= 0`, then `backpack[item] += count`.
A failing assert raises before any mutation. -/
def Inventory.add (inv : Inventory) (item : Item) (count : Int) : Option PyErr × Inventory :=
  if count < 0 then (some PyErr.assertionError, inv)
  else (none, inv.addCount item count)

/-- `Inventory.remove`: `assert count >= 0`; raises `ValueError` when the
backpack holds fewer than `count` units, else `backpack[item] -= count`. -/
def Inventory.remove (inv : Inventory) (item : Item) (count : Int) : Option PyErr × Inventory :=
  if count < 0 then (some PyErr.assertionError, inv)
  else if inv.backpack item < count then (some PyErr.valueError, inv)
  else (none, inv.addCount item (-count))

/-- `Inventory.unequip`: raises `ValueError` on an unknown slot or an
empty slot; otherwise clears the slot and adds the item back with
`add(item)` (count 1, which never fails). -/
def Inventory.unequip (inv : Inventory) (slot : String) : Option PyErr × Inventory :=
  if slot ∈ Inventory.slots then
    match inv.equipment slot with
    | none => (some PyErr.valueError, inv)
    | some item => (inv.setSlot slot none).add item 1
  else (some PyErr.valueError, inv)

/-- `Inventory.equip`: checks the "equippable" tag and the slot name,
performs an implicit `unequip(slot)` when the slot is occupied (a
hot-swap), then `remove(item)` from the backpack and places the item in
the slot.  An exception raised by the inner `unequip` or `remove`
propagates, keeping whatever mutations were already made. -/
def Inventory.equip (inv : Inventory) (slot : String) (item : Item) : Option PyErr × Inventory :=
  if "equippable" ∈ item.tags then
    if slot ∈ Inventory.slots then
      let swapped : Option PyErr × Inventory :=
        match inv.equipment slot with
        | some _ => inv.unequip slot
        | none => (none, inv)
      match swapped with
      | (some e, inv1) => (some e, inv1)
      | (none, inv1) =>
        match inv1.remove item 1 with
        | (some e, inv2) => (some e, inv2)
        | (none, inv2) => (none, inv2.setSlot slot (some item))
    else (some PyErr.valueError, inv)
  else (some PyErr.valueError, inv)

/-- `Inventory.use`: raises `ValueError` when the backpack holds no unit
of the item, else `remove(item)` (count 1). -/
def Inventory.use (inv : Inventory) (item : Item) : Option PyErr × Inventory :=
  if inv.backpack item > 0 then inv.remove item 1
  else (some PyErr.valueError, inv)

/-- Python `int()` applied to a float: truncation toward zero, so the
floor for non-negative values and the ceiling for negative ones. -/
def pyInt (q : ℚ) : Int :=
  if 0 ≤ q then ⌊q⌋ else ⌈q⌉

/-- `Character` from `common.py`: thirteen fields, all defaulting to
`None`; the UUID keys of `bonuses` are modelled as strings. -/
structure Character where
  name : Option String := none
  sprite_sheet : Option (List (String × String)) := none
  is_player : Option Bool := none
  is_alive : Option Bool := none
  base : Option Stats := none
  bonuses : Option (List (String × Stats)) := none
  current : Option Stats := none
  health : Option Int := none
  stamina : Option Int := none
  mana : Option Int := none
  inventory : Option Inventory := none
  actions : Option (List Action) := none
  effects : Option (List (String × String)) := none

/-- `Character()` with every field left at its `None` default (the
Python docstring reserves this for `Character.modify` arguments). -/
def Character.blank : Character := {}

/-- `Character.new`: seeds `is_alive = True`, `current = base`, resource
pools from the base maxima, empty bonuses, a fresh empty inventory. -/
def Character.new (name : String) (sprite_sheet : List (String × String))
    (is_player : Bool) (base_stats : Stats) (actions : List Action)
    (initial_effects : List (String × String)) : Character :=
  { name := some name
    sprite_sheet := some sprite_sheet
    is_player := some is_player
    is_alive := some true
    base := some base_stats
    bonuses := some []
    current := some base_stats
    health := base_stats.max_health
    stamina := base_stats.max_stamina
    mana := base_stats.max_mana
    inventory := some Inventory.new
    actions := some actions
    effects := some initial_effects }

/-- `Character.modify`: the same `None`-keeps-old loop as
`Stats.modify`, over the thirteen character fields. -/
def Character.modify (self changes : Character) : Character :=
  { name := updateField self.name changes.name
    sprite_sheet := updateField self.sprite_sheet changes.sprite_sheet
    is_player := updateField self.is_player changes.is_player
    is_alive := updateField self.is_alive changes.is_alive
    base := updateField self.base changes.base
    bonuses := updateField self.bonuses changes.bonuses
    current := updateField self.current changes.current
    health := updateField self.health changes.health
    stamina := updateField self.stamina changes.stamina
    mana := updateField self.mana changes.mana
    inventory := updateField self.inventory changes.inventory
    actions := updateField self.actions changes.actions
    effects := updateField self.effects changes.effects }

/-- `Character.update_stats` as written in the source.  Its first line is
`for i, stat in enumerate(self.BASE)`, and `Character` has no attribute
`BASE` (the field is named `base`), so every call raises
`AttributeError` before the loop body, the bonus summation, or the
final `Stats(*new_stats)` can run; none of that code is reachable. -/
def Character.update_stats (_ : Character) : Except PyErr Stats :=
  Except.error PyErr.attributeError

/-- `Character.hit`: truncates the damage with `int()`, subtracts it from
`health`, applies the two independent `if` clamps of the source (the
kill clamp to 0 with `is_alive = False`, then the cap at
`current.max_health`), and returns the `modify`-built snapshot together
with the damage taken.  `self.health - damage_taken` raises `TypeError`
when `health` is `None`; `self.current.max_health` raises
`AttributeError` when `current` is `None`; comparing `health` with a
`None` maximum raises `TypeError`. -/
def Character.hit (c : Character) (attack : DamageInstance) : Except PyErr (Character × Int) :=
  let damage_taken := pyInt attack.damage
  match c.health with
  | none => Except.error PyErr.typeError
  | some h0 =>
    let health1 := h0 - damage_taken
    let health2 := if health1 ≤ 0 then 0 else health1
    let is_alive2 := if health1 ≤ 0 then some false else c.is_alive
    match c.current with
    | none => Except.error PyErr.attributeError
    | some cur =>
      match cur.max_health with
      | none => Except.error PyErr.typeError
      | some mh =>
        let health3 := if mh < health2 then mh else health2
        Except.ok
          (c.modify { Character.blank with health := some health3, is_alive := is_alive2 },
           damage_taken)

/-! Concrete fixtures, mirroring the repository's own `Inventory._test`
data: `item1` is equippable, `item3` is a second equippable item. -/

/-- The equippable `item1` of `Inventory._test`. -/
def itemA : Item :=
  { name := "item1", description := "lorem ipsum", tags := ["item", "equippable"],
    weight := 1, max_durability := 100, durability := 100,
    stat_bonus := Stats.blank, actions := [], uuid := "UUID-A" }

/-- The equippable `item3` of `Inventory._test`. -/
def itemB : Item :=
  { name := "item3", description := "Ave Caesar", tags := ["item", "equippable"],
    weight := 1, max_durability := 100, durability := 100,
    stat_bonus := Stats.blank, actions := [], uuid := "UUID-B" }

/-- The non-equippable `item2` of `Inventory._test`. -/
def itemC : Item :=
  { name := "item2", description := "Poland", tags := ["item"],
    weight := 1, max_durability := 100, durability := 100,
    stat_bonus := Stats.blank, actions := [], uuid := "UUID-C" }

/-- An inventory whose `head` slot holds `itemA` and whose backpack is
empty. -/
def invHead : Inventory :=
  { equipment := fun s => if s = "head" then some itemA else none,
    backpack := fun _ => 0 }

/-- An inventory whose `head` slot holds `itemA` and whose backpack
holds two units of `itemB`. -/
def invSwap : Inventory :=
  { equipment := fun s => if s = "head" then some itemA else none,
    backpack := fun j => if j = itemB then 2 else 0 }

/-- A fully populated base sheet (the `John Halo` test sheet of
`Character._test`). -/
def statsBase : Stats :=
  { max_health := some 8, max_stamina := some 16, max_mana := some 4,
    strength := some 8, agility := some 6, acumen := some 4,
    armor := some 2, magical_resistance := some 4 }

/-- A patch sheet setting only `max_health`. -/
def statsPatch : Stats :=
  { max_health := some 20 }

/-- A base sheet with a 20-point health maximum. -/
def stats20 : Stats :=
  { Stats.blank with max_health := some 20, max_stamina := some 16, max_mana := some 4 }

/-- The spec's `hit` example subject: health 10, `max_health` 20,
alive. -/
def hitChar : Character :=
  (Character.new "target" [] false stats20 [] []).modify
    { Character.blank with health := some 10 }

/-- A sheet whose health maximum is negative. -/
def sickStats : Stats :=
  { Stats.blank with max_health := some (-5) }

/-- A living character with health 3 whose current sheet has
`max_health = -5`. -/
def sickChar : Character :=
  { Character.blank with
    is_alive := some true
    health := some 3
    base := some sickStats
    current := some sickStats }

/-- A dead character with health 5 and `max_health` 10. -/
def deadChar : Character :=
  { Character.blank with
    is_alive := some false
    health := some 5
    current := some { Stats.blank with max_health := some 10 } }

/-- A damage instance of -5/2 (a negative, non-integral float). -/
def dmgNegHalf : DamageInstance :=
  { damage := -(5 / 2 : ℚ), damage_type := "physical", effects := [] }

/-- A damage instance of 15. -/
def dmg15 : DamageInstance :=
  { damage := ((15 : Int) : ℚ), damage_type := "physical", effects := [] }

/-- A damage instance of 10. -/
def dmg10 : DamageInstance :=
  { damage := ((10 : Int) : ℚ), damage_type := "physical", effects := [] }

/-- A damage instance of 1. -/
def dmg1 : DamageInstance :=
  { damage := ((1 : Int) : ℚ), damage_type := "physical", effects := [] }

/-- One call to an inventory-mutating operation, for reachability
statements. -/
inductive InvOp where
  | add (item : Item) (count : Int)
  | remove (item : Item) (count : Int)
  | equip (slot : String) (item : Item)
  | unequip (slot : String)
  | use (item : Item)

/-- Perform one operation, returning the error (if the call raised) and
the inventory state after the call. -/
def InvOp.apply (inv : Inventory) : InvOp → Option PyErr × Inventory
  | .add it c => inv.add it c
  | .remove it c => inv.remove it c
  | .equip s it => inv.equip s it
  | .unequip s => inv.unequip s
  | .use it => inv.use it

/-- Run a sequence of operations, keeping the post-call state whether or
not each call raised (Python mutates in place, so a raising call leaves
its partial mutations behind). -/
def Inventory.run (inv : Inventory) (ops : List InvOp) : Inventory :=
  ops.foldl (fun st op => (InvOp.apply st op).2) inv

/-! Theorems. -/

/-- Helper: `pyInt` is the identity on integral rationals. -/
theorem pyInt_intCast (d : Int) : pyInt (d : ℚ) = d := by
  unfold pyInt
  split
  · exact Int.floor_intCast d
  · exact Int.ceil_intCast d

/-- Helper: the explicit success form of `hit` when `health`, `current`
and `current.max_health` are all set. -/
theorem hit_ok (c : Character) (a : DamageInstance) (h0 : Int) (cur : Stats) (mh : Int)
    (hh : c.health = some h0) (hcur : c.current = some cur)
    (hmh : cur.max_health = some mh) :
    c.hit a = Except.ok
      (c.modify { Character.blank with
          health := some (if mh < (if h0 - pyInt a.damage ≤ 0 then 0 else h0 - pyInt a.damage)
                          then mh else (if h0 - pyInt a.damage ≤ 0 then 0 else h0 - pyInt a.damage))
          is_alive := if h0 - pyInt a.damage ≤ 0 then some false else c.is_alive },
       pyInt a.damage) := by
  simp only [Character.hit, hh, hcur, hmh]

/-- Helper: the field rule of `modify` is associative. -/
theorem updateField_assoc {α : Type} (o p q : Option α) :
    updateField (updateField o p) q = updateField o (updateField p q) := by
  cases q <;> cases p <;> rfl

/-- C6: each field of `s.modify c` equals `c`'s field when that field is
set in `c` and equals `s`'s field otherwise (stated for each of the
eight fields); `modify` is pure, so `s` itself is untouched; and with an
all-unset `changes` sheet `s.modify changes` equals `s`. -/
theorem stats_modify_override_or_keep (s c : Stats) :
    (∀ v, c.max_health = some v → (s.modify c).max_health = some v)
    ∧ (c.max_health = none → (s.modify c).max_health = s.max_health)
    ∧ (∀ v, c.max_stamina = some v → (s.modify c).max_stamina = some v)
    ∧ (c.max_stamina = none → (s.modify c).max_stamina = s.max_stamina)
    ∧ (∀ v, c.max_mana = some v → (s.modify c).max_mana = some v)
    ∧ (c.max_mana = none → (s.modify c).max_mana = s.max_mana)
    ∧ (∀ v, c.strength = some v → (s.modify c).strength = some v)
    ∧ (c.strength = none → (s.modify c).strength = s.strength)
    ∧ (∀ v, c.agility = some v → (s.modify c).agility = some v)
    ∧ (c.agility = none → (s.modify c).agility = s.agility)
    ∧ (∀ v, c.acumen = some v → (s.modify c).acumen = some v)
    ∧ (c.acumen = none → (s.modify c).acumen = s.acumen)
    ∧ (∀ v, c.armor = some v → (s.modify c).armor = some v)
    ∧ (c.armor = none → (s.modify c).armor = s.armor)
    ∧ (∀ v, c.magical_resistance = some v → (s.modify c).magical_resistance = some v)
    ∧ (c.magical_resistance = none → (s.modify c).magical_resistance = s.magical_resistance)
    ∧ (c = Stats.blank → s.modify c = s) :=
  ⟨fun _ hv => by simp [Stats.modify, updateField, hv],
   fun hv => by simp [Stats.modify, updateField, hv],
   fun _ hv => by simp [Stats.modify, updateField, hv],
   fun hv => by simp [Stats.modify, updateField, hv],
   fun _ hv => by simp [Stats.modify, updateField, hv],
   fun hv => by simp [Stats.modify, updateField, hv],
   fun _ hv => by simp [Stats.modify, updateField, hv],
   fun hv => by simp [Stats.modify, updateField, hv],
   fun _ hv => by simp [Stats.modify, updateField, hv],
   fun hv => by simp [Stats.modify, updateField, hv],
   fun _ hv => by simp [Stats.modify, updateField, hv],
   fun hv => by simp [Stats.modify, updateField, hv],
   fun _ hv => by simp [Stats.modify, updateField, hv],
   fun hv => by simp [Stats.modify, updateField, hv],
   fun _ hv => by simp [Stats.modify, updateField, hv],
   fun hv => by simp [Stats.modify, updateField, hv],
   fun hc => by subst hc; rfl⟩

/-- Witness for C6 at concrete sheets: overriding `max_health` with 20
takes effect, `max_stamina` stays, and the all-unset patch is a no-op. -/
theorem stats_modify_override_or_keep_witness :
    (statsBase.modify statsPatch).max_health = some 20
    ∧ (statsBase.modify statsPatch).max_stamina = statsBase.max_stamina
    ∧ statsBase.modify Stats.blank = statsBase := by
  have h1 := stats_modify_override_or_keep statsBase statsPatch
  have h2 := stats_modify_override_or_keep statsBase Stats.blank
  exact ⟨h1.1 20 rfl, h1.2.2.2.1 rfl,
    h2.2.2.2.2.2.2.2.2.2.2.2.2.2.2.2.2 rfl⟩

/-- C7: `Stats.modify` is associative — chaining two patches equals
applying the patch of the patches. -/
theorem stats_modify_assoc (a b c : Stats) :
    (a.modify b).modify c = a.modify (b.modify c) := by
  simp [Stats.modify, updateField_assoc]

/-- C3 counterexample: `hit` with damage -5/2 reports -2 damage dealt
(Python `int()` truncates toward zero), while the floor of -5/2 is -3. -/
theorem hit_floor_cex :
    (hitChar.hit dmgNegHalf).toOption.map Prod.snd = some (-2)
    ∧ ⌊dmgNegHalf.damage⌋ = -3
    ∧ ((-2 : Int) ≠ -3) := by
  have hp : pyInt dmgNegHalf.damage = -2 := by
    unfold pyInt
    norm_num [dmgNegHalf, Int.ceil_eq_iff]
  refine ⟨?_, ?_, by decide⟩
  · rw [hit_ok hitChar dmgNegHalf 10 stats20 20 rfl rfl rfl, hp]
    simp [Except.toOption]
  · norm_num [dmgNegHalf, Int.floor_eq_iff]

/-- C3 amended: whenever `hit` returns, the damage dealt is the
truncation toward zero of `damage`: its floor when the damage is
non-negative, its ceiling when the damage is negative. -/
theorem hit_damage_truncates_toward_zero (c : Character) (a : DamageInstance)
    (r : Character × Int) (h : c.hit a = Except.ok r) :
    r.2 = pyInt a.damage
    ∧ (0 ≤ a.damage → pyInt a.damage = ⌊a.damage⌋)
    ∧ (a.damage < 0 → pyInt a.damage = ⌈a.damage⌉) := by
  refine ⟨?_, fun h0 => by simp [pyInt, h0], fun h0 => by simp [pyInt, not_le.mpr h0]⟩
  cases hh : c.health with
  | none => simp [Character.hit, hh] at h
  | some h0 =>
    cases hcur : c.current with
    | none => simp [Character.hit, hh, hcur] at h
    | some cur =>
      cases hmh : cur.max_health with
      | none => simp [Character.hit, hh, hcur, hmh] at h
      | some mh =>
        simp only [Character.hit, hh, hcur, hmh, Except.ok.injEq] at h
        rw [← h]

/-- Witness for the amended C3 at a concrete character and the damage
-5/2: the reported damage is -2 = ⌈-5/2⌉. -/
theorem hit_damage_truncates_toward_zero_witness :
    ((-2 : Int) = pyInt dmgNegHalf.damage)
    ∧ pyInt dmgNegHalf.damage = ⌈dmgNegHalf.damage⌉ := by
  have hp : pyInt dmgNegHalf.damage = -2 := by
    unfold pyInt
    norm_num [dmgNegHalf, Int.ceil_eq_iff]
  have hok := hit_ok hitChar dmgNegHalf 10 stats20 20 rfl rfl rfl
  rw [hp] at hok
  have h := hit_damage_truncates_toward_zero hitChar dmgNegHalf _ hok
  exact ⟨h.1, h.2.2 (by norm_num [dmgNegHalf])⟩

/-- C4 amended: for a living character with integer health, a set
current sheet whose health maximum is non-negative, and integer damage
d, `hit` returns d as damage dealt, kills and zeroes the health when
h - d ≤ 0, clamps to the maximum when h - d exceeds it, and otherwise
leaves h - d.  (Without the non-negativity of the maximum the kill
branch is further clamped to the negative maximum: see the
counterexample.) -/
theorem hit_kill_and_clamp (c : Character) (a : DamageInstance)
    (h0 mh d : Int) (cur : Stats)
    (hh : c.health = some h0) (hal : c.is_alive = some true)
    (hcur : c.current = some cur) (hmh : cur.max_health = some mh)
    (hmh0 : 0 ≤ mh) (hd : a.damage = (d : ℚ)) :
    ∃ c1, c.hit a = Except.ok (c1, d)
      ∧ (h0 - d ≤ 0 → c1.health = some 0 ∧ c1.is_alive = some false)
      ∧ (0 < h0 - d → mh < h0 - d → c1.health = some mh ∧ c1.is_alive = some true)
      ∧ (0 < h0 - d → h0 - d ≤ mh → c1.health = some (h0 - d) ∧ c1.is_alive = some true) := by
  have hpy : pyInt a.damage = d := by rw [hd]; exact pyInt_intCast d
  have hok := hit_ok c a h0 cur mh hh hcur hmh
  rw [hpy] at hok
  refine ⟨_, hok, ?_, ?_, ?_⟩
  · intro hk
    constructor
    · simp [Character.modify, Character.blank, updateField, hk, not_lt.mpr hmh0]
    · simp [Character.modify, Character.blank, updateField, hk]
  · intro hpos hover
    constructor
    · simp [Character.modify, Character.blank, updateField, not_le.mpr hpos, hover]
    · simp [Character.modify, Character.blank, updateField, not_le.mpr hpos, hal]
  · intro hpos hle
    constructor
    · simp [Character.modify, Character.blank, updateField, not_le.mpr hpos, not_lt.mpr hle]
    · simp [Character.modify, Character.blank, updateField, not_le.mpr hpos, hal]

/-- Witness for the amended C4: the spec's own example — health 10,
maximum 20, damage 15 — yields health 0, death, and 15 damage dealt. -/
theorem hit_kill_and_clamp_witness :
    (hitChar.hit dmg15).toOption.map (fun p => (p.1.health, p.1.is_alive, p.2))
      = some (some 0, some false, 15) := by
  obtain ⟨c1, hok, hkill, -, -⟩ :=
    hit_kill_and_clamp hitChar dmg15 10 20 15 stats20 rfl rfl rfl rfl (by norm_num) rfl
  have hx := hkill (by norm_num)
  rw [hok]
  simp [Except.toOption, hx.1, hx.2]

/-- C4 counterexample: a living character with health 3 whose
`current.max_health` is -5 takes damage 10.  The claim demands health 0,
but the source's two independent `if` clauses first zero the health and
then cap it at the (negative) maximum, leaving health -5. -/
theorem hit_kill_and_clamp_cex :
    (sickChar.hit dmg10).toOption.map (fun p => (p.1.health, p.1.is_alive))
      = some (some (-5), some false)
    ∧ ((3 : Int) - 10 ≤ 0)
    ∧ (some (-5 : Int) ≠ some (0 : Int)) := by
  have hp : pyInt dmg10.damage = 10 := pyInt_intCast 10
  have hok := hit_ok sickChar dmg10 3 sickStats (-5) rfl rfl rfl
  rw [hp] at hok
  norm_num at hok
  refine ⟨?_, by norm_num, by decide⟩
  rw [hok]
  simp [Except.toOption, Character.modify, Character.blank, updateField]

/-- C5: `hit` on a dead character (negative damage included) never
returns a snapshot with `is_alive` true: dead characters stay dead. -/
theorem hit_never_revives (c : Character) (a : DamageInstance)
    (r : Character × Int) (hdead : c.is_alive = some false)
    (h : c.hit a = Except.ok r) :
    r.1.is_alive = some false := by
  cases hh : c.health with
  | none => simp [Character.hit, hh] at h
  | some h0 =>
    cases hcur : c.current with
    | none => simp [Character.hit, hh, hcur] at h
    | some cur =>
      cases hmh : cur.max_health with
      | none => simp [Character.hit, hh, hcur, hmh] at h
      | some mh =>
        simp only [Character.hit, hh, hcur, hmh, Except.ok.injEq] at h
        rw [← h]
        by_cases hk : h0 - pyInt a.damage ≤ 0
        · simp [Character.modify, Character.blank, updateField, hk]
        · simp [Character.modify, Character.blank, updateField, hk, hdead]

/-- Witness for C5: a dead character with health 5 hit for 1 damage
comes back with health 4 and still dead. -/
theorem hit_never_revives_witness :
    (deadChar.hit dmg1).toOption.map (fun p => p.1.is_alive) = some (some false) := by
  have hp : pyInt dmg1.damage = 1 := pyInt_intCast 1
  have hok := hit_ok deadChar dmg1 5 { Stats.blank with max_health := some 10 } 10 rfl rfl rfl
  rw [hp] at hok
  have h := hit_never_revives deadChar dmg1 _ rfl hok
  rw [hok]
  simpa [Except.toOption] using h

/-- C2 evidence: `update_stats` raises `AttributeError` on every call,
because its loop header reads the nonexistent attribute `self.BASE`
(the field is named `base`); it never returns a `Stats` sheet. -/
theorem update_stats_always_raises (c : Character) :
    c.update_stats = Except.error PyErr.attributeError :=
  rfl

/-- Helper: a failing `remove` does not change the inventory. -/
theorem remove_fail_eq (inv : Inventory) (it : Item) (cnt : Int)
    (h : (inv.remove it cnt).1.isSome = true) : (inv.remove it cnt).2 = inv := by
  by_cases h1 : cnt < 0
  · simp [Inventory.remove, h1]
  · by_cases h2 : inv.backpack it < cnt
    · simp [Inventory.remove, h1, h2]
    · simp [Inventory.remove, h1, h2] at h

/-- Helper: `unequip` on a valid occupied slot clears the slot and puts
one unit of the occupant into the backpack, raising nothing. -/
theorem unequip_occupied (inv : Inventory) (slot : String) (occ : Item)
    (h2 : slot ∈ Inventory.slots) (hocc : inv.equipment slot = some occ) :
    inv.unequip slot = (none, (inv.setSlot slot none).addCount occ 1) := by
  simp [Inventory.unequip, Inventory.add, h2, hocc]

/-- C1 amended: `remove` and `unequip` never mutate on failure; `equip`
does not mutate when it fails the equippable-tag check or the slot-name
check (whether or not the slot is occupied — both checks precede any
mutation), nor on any failure when the target slot is empty; but when
the slot is occupied and `equip` fails at the final `remove` (distinct
item, zero backpack units), the implicit hot-swap `unequip` has already
run: the previous occupant has been moved to the backpack and the slot
left empty, rather than staying equipped with the backpack unchanged. -/
theorem inventory_no_partial_mutation (inv : Inventory) (slot : String)
    (it occ : Item) (cnt : Int) :
    ((inv.remove it cnt).1.isSome = true → (inv.remove it cnt).2 = inv)
    ∧ ((inv.unequip slot).1.isSome = true → (inv.unequip slot).2 = inv)
    ∧ (¬ "equippable" ∈ it.tags →
        (inv.equip slot it).1 = some PyErr.valueError ∧ (inv.equip slot it).2 = inv)
    ∧ (¬ slot ∈ Inventory.slots →
        (inv.equip slot it).1 = some PyErr.valueError ∧ (inv.equip slot it).2 = inv)
    ∧ (inv.equipment slot = none → (inv.equip slot it).1.isSome = true →
        (inv.equip slot it).2 = inv)
    ∧ ("equippable" ∈ it.tags → slot ∈ Inventory.slots →
        inv.equipment slot = some occ → it ≠ occ → inv.backpack it = 0 →
        (inv.equip slot it).1 = some PyErr.valueError
        ∧ (inv.equip slot it).2.equipment slot = none
        ∧ ∀ j, (inv.equip slot it).2.backpack j
            = inv.backpack j + (if j = occ then 1 else 0)) := by
  refine ⟨remove_fail_eq inv it cnt, ?_, ?_, ?_, ?_, ?_⟩
  · intro h
    by_cases h2 : slot ∈ Inventory.slots
    · cases hocc : inv.equipment slot with
      | none => simp [Inventory.unequip, h2, hocc]
      | some o => simp [Inventory.unequip, Inventory.add, h2, hocc] at h
    · simp [Inventory.unequip, h2]
  · intro h1
    constructor <;> simp [Inventory.equip, h1]
  · intro h2
    by_cases h1 : "equippable" ∈ it.tags
    · constructor <;> simp [Inventory.equip, h1, h2]
    · constructor <;> simp [Inventory.equip, h1]
  · intro hemp h
    by_cases h1 : "equippable" ∈ it.tags
    · by_cases h2 : slot ∈ Inventory.slots
      · rcases hr : inv.remove it 1 with ⟨e, inv2⟩
        cases e with
        | none => simp [Inventory.equip, h1, h2, hemp, hr] at h
        | some err =>
          have hfix := remove_fail_eq inv it 1 (by rw [hr]; rfl)
          rw [hr] at hfix
          simp [Inventory.equip, h1, h2, hemp, hr, hfix]
      · simp [Inventory.equip, h1, h2]
    · simp [Inventory.equip, h1]
  · intro h1 h2 hocc hne hcnt
    have hu := unequip_occupied inv slot occ h2 hocc
    have hb : ((inv.setSlot slot none).addCount occ 1).backpack it = 0 := by
      simp [Inventory.addCount, Inventory.setSlot, hne, hcnt]
    have hr : ((inv.setSlot slot none).addCount occ 1).remove it 1
        = (some PyErr.valueError, (inv.setSlot slot none).addCount occ 1) := by
      simp [Inventory.remove, hb]
    have he : inv.equip slot it
        = (some PyErr.valueError, (inv.setSlot slot none).addCount occ 1) := by
      simp [Inventory.equip, h1, h2, hocc, hu, hr]
    refine ⟨by rw [he], by rw [he]; simp [Inventory.addCount, Inventory.setSlot], ?_⟩
    intro j
    rw [he]
    simp only [Inventory.addCount, Inventory.setSlot]
    split
    · simp_all
    · simp_all

/-- Witness for the amended C1: on an inventory with `itemA` equipped in
`head` and an empty backpack, a failing `remove`, a failing `unequip`,
an `equip` of the non-equippable `itemC` into the occupied `head` slot,
an `equip` into the nonexistent slot `hat`, and a failing empty-slot
`equip` all leave the state intact, while the failing occupied-slot
`equip("head", itemB)` empties the slot and moves `itemA` into the
backpack. -/
theorem inventory_no_partial_mutation_witness :
    ((invHead.remove itemB 1).2 = invHead)
    ∧ ((invHead.unequip "feet").2 = invHead)
    ∧ ((invHead.equip "head" itemC).2 = invHead)
    ∧ ((invHead.equip "hat" itemB).2 = invHead)
    ∧ ((invHead.equip "feet" itemB).2 = invHead)
    ∧ ((invHead.equip "head" itemB).1 = some PyErr.valueError)
    ∧ ((invHead.equip "head" itemB).2.equipment "head" = none)
    ∧ ((invHead.equip "head" itemB).2.backpack itemA = invHead.backpack itemA + 1) := by
  have h := inventory_no_partial_mutation invHead "head" itemB itemA 1
  have hc := inventory_no_partial_mutation invHead "head" itemC itemA 1
  have hs := inventory_no_partial_mutation invHead "hat" itemB itemA 1
  have hf := inventory_no_partial_mutation invHead "feet" itemB itemA 1
  have hm := h.2.2.2.2.2 (by decide) (by decide) rfl (by decide) rfl
  refine ⟨h.1 (by decide), hf.2.1 (by decide), (hc.2.2.1 (by decide)).2,
    (hs.2.2.2.1 (by decide)).2, hf.2.2.2.2.1 rfl (by decide), hm.1, hm.2.1, ?_⟩
  simpa using hm.2.2 itemA

/-- C1 counterexample: the claim demands that the failed
`equip("head", itemB)` (occupied slot, zero units of `itemB`) leave
`itemA` equipped and the backpack unchanged; in fact the slot ends up
empty and the backpack gains one `itemA`. -/
theorem inventory_no_partial_mutation_cex :
    ((invHead.equip "head" itemB).1 = some PyErr.valueError)
    ∧ (invHead.equipment "head" = some itemA)
    ∧ ((invHead.equip "head" itemB).2.equipment "head" = none)
    ∧ (none ≠ some itemA)
    ∧ (invHead.backpack itemA = 0)
    ∧ ((invHead.equip "head" itemB).2.backpack itemA = 1) := by
  refine ⟨?_, by decide, ?_, by decide, by decide, ?_⟩ <;> decide

/-- C8: hot-swapping a valid occupied slot with a distinct equippable
item present in the backpack succeeds; afterwards the slot holds the new
item, the old occupant's count has grown by one, and the new item's
count has shrunk by one. -/
theorem equip_hot_swap (inv : Inventory) (slot : String) (itA itB : Item)
    (htag : "equippable" ∈ itB.tags) (hslot : slot ∈ Inventory.slots)
    (hocc : inv.equipment slot = some itA) (hcnt : 1 ≤ inv.backpack itB)
    (hne : itA ≠ itB) :
    (inv.equip slot itB).1 = none
    ∧ (inv.equip slot itB).2.equipment slot = some itB
    ∧ (inv.equip slot itB).2.backpack itA = inv.backpack itA + 1
    ∧ (inv.equip slot itB).2.backpack itB = inv.backpack itB - 1 := by
  have hu := unequip_occupied inv slot itA hslot hocc
  have hb : ((inv.setSlot slot none).addCount itA 1).backpack itB = inv.backpack itB := by
    simp [Inventory.addCount, Inventory.setSlot, Ne.symm hne]
  have hr : ((inv.setSlot slot none).addCount itA 1).remove itB 1
      = (none, ((inv.setSlot slot none).addCount itA 1).addCount itB (-1)) := by
    have : ¬ ((inv.setSlot slot none).addCount itA 1).backpack itB < 1 := by omega
    simp [Inventory.remove, this]
  have he : inv.equip slot itB
      = (none, (((inv.setSlot slot none).addCount itA 1).addCount itB (-1)).setSlot slot (some itB)) := by
    simp [Inventory.equip, htag, hslot, hocc, hu, hr]
  refine ⟨by rw [he], by rw [he]; simp [Inventory.setSlot], ?_, ?_⟩
  · rw [he]
    simp [Inventory.setSlot, Inventory.addCount, hne, Ne.symm hne]
  · rw [he]
    simp [Inventory.setSlot, Inventory.addCount, Ne.symm hne]
    omega

/-- Witness for C8: the test inventory with `itemA` in `head` and two
units of `itemB` hot-swaps to `itemB` equipped, one `itemA` and one
`itemB` in the backpack. -/
theorem equip_hot_swap_witness :
    (invSwap.equip "head" itemB).1 = none
    ∧ (invSwap.equip "head" itemB).2.equipment "head" = some itemB
    ∧ (invSwap.equip "head" itemB).2.backpack itemA = invSwap.backpack itemA + 1
    ∧ (invSwap.equip "head" itemB).2.backpack itemB = invSwap.backpack itemB - 1 :=
  equip_hot_swap invSwap "head" itemA itemB (by decide) (by decide) rfl (by decide) (by decide)

/-- Helper: `add` preserves non-negativity of all backpack counts. -/
theorem add_preserves_nonneg (inv : Inventory) (it : Item) (cnt : Int)
    (hinv : ∀ j, 0 ≤ inv.backpack j) : ∀ j, 0 ≤ (inv.add it cnt).2.backpack j := by
  intro j
  have hj := hinv j
  by_cases h : cnt < 0
  · simpa [Inventory.add, h] using hj
  · simp [Inventory.add, h, Inventory.addCount]
    split <;> omega

/-- Helper: `remove` preserves non-negativity of all backpack counts. -/
theorem remove_preserves_nonneg (inv : Inventory) (it : Item) (cnt : Int)
    (hinv : ∀ j, 0 ≤ inv.backpack j) : ∀ j, 0 ≤ (inv.remove it cnt).2.backpack j := by
  intro j
  have hj := hinv j
  have hi := hinv it
  by_cases h1 : cnt < 0
  · simpa [Inventory.remove, h1] using hj
  · by_cases h2 : inv.backpack it < cnt
    · simpa [Inventory.remove, h1, h2] using hj
    · simp [Inventory.remove, h1, h2, Inventory.addCount]
      split
      · rename_i hji
        subst hji
        omega
      · omega

/-- Helper: `unequip` preserves non-negativity of all backpack counts. -/
theorem unequip_preserves_nonneg (inv : Inventory) (slot : String)
    (hinv : ∀ j, 0 ≤ inv.backpack j) : ∀ j, 0 ≤ (inv.unequip slot).2.backpack j := by
  intro j
  have hj := hinv j
  by_cases h2 : slot ∈ Inventory.slots
  · cases hocc : inv.equipment slot with
    | none => simpa [Inventory.unequip, h2, hocc] using hj
    | some occ =>
      simp [Inventory.unequip, h2, hocc, Inventory.add, Inventory.addCount, Inventory.setSlot]
      split <;> omega
  · simpa [Inventory.unequip, h2] using hj

/-- Helper: `equip` preserves non-negativity of all backpack counts. -/
theorem equip_preserves_nonneg (inv : Inventory) (slot : String) (it : Item)
    (hinv : ∀ j, 0 ≤ inv.backpack j) : ∀ j, 0 ≤ (inv.equip slot it).2.backpack j := by
  intro j
  by_cases h1 : "equippable" ∈ it.tags
  · by_cases h2 : slot ∈ Inventory.slots
    · cases hocc : inv.equipment slot with
      | none =>
        have hrem := remove_preserves_nonneg inv it 1 hinv
        rcases hr : inv.remove it 1 with ⟨e, inv2⟩
        rw [hr] at hrem
        cases e with
        | none =>
          have he2 : inv.equip slot it = (none, inv2.setSlot slot (some it)) := by
            simp [Inventory.equip, h1, h2, hocc, hr]
          rw [he2]
          simpa [Inventory.setSlot] using hrem j
        | some err =>
          have he2 : inv.equip slot it = (some err, inv2) := by
            simp [Inventory.equip, h1, h2, hocc, hr]
          rw [he2]
          exact hrem j
      | some occ =>
        have hu := unequip_occupied inv slot occ h2 hocc
        have hinv1 : ∀ k, 0 ≤ ((inv.setSlot slot none).addCount occ 1).backpack k := by
          intro k
          have hk := hinv k
          simp [Inventory.addCount, Inventory.setSlot]
          split <;> omega
        have hrem := remove_preserves_nonneg ((inv.setSlot slot none).addCount occ 1) it 1 hinv1
        rcases hr : ((inv.setSlot slot none).addCount occ 1).remove it 1 with ⟨e, inv2⟩
        rw [hr] at hrem
        cases e with
        | none =>
          have he2 : inv.equip slot it = (none, inv2.setSlot slot (some it)) := by
            simp [Inventory.equip, h1, h2, hocc, hu, hr]
          rw [he2]
          simpa [Inventory.setSlot] using hrem j
        | some err =>
          have he2 : inv.equip slot it = (some err, inv2) := by
            simp [Inventory.equip, h1, h2, hocc, hu, hr]
          rw [he2]
          exact hrem j
    · simpa [Inventory.equip, h1, h2] using hinv j
  · simpa [Inventory.equip, h1] using hinv j

/-- Helper: `use` preserves non-negativity of all backpack counts. -/
theorem use_preserves_nonneg (inv : Inventory) (it : Item)
    (hinv : ∀ j, 0 ≤ inv.backpack j) : ∀ j, 0 ≤ (inv.use it).2.backpack j := by
  intro j
  by_cases h : inv.backpack it > 0
  · simpa [Inventory.use, h] using remove_preserves_nonneg inv it 1 hinv j
  · simpa [Inventory.use, h] using hinv j

/-- Helper: one step of any operation preserves non-negativity. -/
theorem op_preserves_nonneg (inv : Inventory) (op : InvOp)
    (hinv : ∀ j, 0 ≤ inv.backpack j) : ∀ j, 0 ≤ (InvOp.apply inv op).2.backpack j := by
  cases op with
  | add it c => exact add_preserves_nonneg inv it c hinv
  | remove it c => exact remove_preserves_nonneg inv it c hinv
  | equip s it => exact equip_preserves_nonneg inv s it hinv
  | unequip s => exact unequip_preserves_nonneg inv s hinv
  | use it => exact use_preserves_nonneg inv it hinv

/-- Helper: running any operation sequence preserves non-negativity. -/
theorem run_preserves_nonneg (ops : List InvOp) (inv : Inventory)
    (hinv : ∀ j, 0 ≤ inv.backpack j) : ∀ j, 0 ≤ (inv.run ops).backpack j := by
  induction ops generalizing inv with
  | nil => exact hinv
  | cons op rest ih => exact ih ((InvOp.apply inv op).2) (op_preserves_nonneg inv op hinv)

/-- C9: every inventory state reachable from `Inventory.new()` by any
sequence of add/remove/equip/unequip/use calls — keeping the post-call
state whether each call succeeded or raised — has a non-negative
backpack count for every item. -/
theorem reachable_backpack_nonneg (ops : List InvOp) (j : Item) :
    0 ≤ (Inventory.new.run ops).backpack j :=
  run_preserves_nonneg ops Inventory.new (fun _ => le_refl 0) j

/-- C10: `use(item)` is observationally `remove(item, 1)`: the two calls
return the same error and the same state; on a state with a
non-negative count, `use` raises exactly when the count is zero; and a
successful `use` decrements the item's count by one and changes no
other count and no equipment slot. -/
theorem use_eq_remove_one (inv : Inventory) (it : Item) :
    inv.use it = inv.remove it 1
    ∧ (0 ≤ inv.backpack it →
        (((inv.use it).1.isSome = true) ↔ inv.backpack it = 0))
    ∧ ((inv.use it).1 = none →
        ((inv.use it).2.backpack it = inv.backpack it - 1
          ∧ (∀ j, j ≠ it → (inv.use it).2.backpack j = inv.backpack j)
          ∧ (inv.use it).2.equipment = inv.equipment)) := by
  by_cases h : inv.backpack it > 0
  · have hlt : ¬ inv.backpack it < 1 := by omega
    have he : inv.use it = (none, inv.addCount it (-1)) := by
      simp [Inventory.use, Inventory.remove, h, hlt]
    refine ⟨by simp [Inventory.use, Inventory.remove, h, hlt], ?_, ?_⟩
    · intro h0
      rw [he]
      simp
      omega
    · intro h0
      rw [he]
      refine ⟨by simp [Inventory.addCount]; omega, ?_, rfl⟩
      intro j hj
      simp [Inventory.addCount, hj]
  · have hlt : inv.backpack it < 1 := by omega
    have he : inv.use it = (some PyErr.valueError, inv) := by
      simp [Inventory.use, h]
    refine ⟨by simp [Inventory.use, Inventory.remove, h, hlt], ?_, ?_⟩
    · intro h0
      rw [he]
      simp
      omega
    · intro h0
      rw [he] at h0
      simp at h0

/-- Witness for C10 on the two-unit inventory: `use` agrees with
`remove 1`, does not raise, and decrements the count of `itemB`. -/
theorem use_eq_remove_one_witness :
    (invSwap.use itemB = invSwap.remove itemB 1)
    ∧ (((invSwap.use itemB).1.isSome = true) ↔ invSwap.backpack itemB = 0)
    ∧ ((invSwap.use itemB).2.backpack itemB = invSwap.backpack itemB - 1) := by
  have h := use_eq_remove_one invSwap itemB
  exact ⟨h.1, h.2.1 (by decide), (h.2.2 (by decide)).1⟩

end Game
